import Mathlib

/-!
Shallow embedding of `triton_xla_ops.cc` (SparseDotOp, TileOp, ExtractOp,
InsertOp of the `triton_xla` dialect): data model, verification and
type-inference routines, and the TileOp textual grammar, with theorems about
the properties the operations are specified to satisfy.
-/

set_option maxHeartbeats 1000000

/-- Element types of tensors, as queried by the verifier
(`isF16`, `isBF16`, `isF32`, `isInteger(16)`). -/
inductive ElemType where
  | f16
  | bf16
  | f32
  | int (width : Nat)
  | other (id : Nat)
deriving DecidableEq, Repr

def ElemType.isF16 : ElemType → Bool
  | .f16 => true
  | _ => false

def ElemType.isBF16 : ElemType → Bool
  | .bf16 => true
  | _ => false

def ElemType.isF32 : ElemType → Bool
  | .f32 => true
  | _ => false

def ElemType.isInteger : ElemType → Nat → Bool
  | .int w, n => w == n
  | _, _ => false

/-- An opaque layout/encoding attribute; `dialectId` identifies the dialect
that owns it (`Attribute::getDialect`). -/
structure Encoding where
  dialectId : Nat
  layoutId : Nat
deriving DecidableEq, Repr

/-- A ranked tensor (or memory-descriptor) type: static shape, element type,
optional layout encoding. Dimensions are `int64_t` in the source, embedded
as `Int`. -/
structure TensorType where
  shape : List Int
  elemType : ElemType
  encoding : Option Encoding
deriving DecidableEq, Repr

/-- Result of a verification routine (`mlir::LogicalResult` together with the
diagnostic emitted by `emitError`). -/
inductive VerifyResult where
  | success
  | error (msg : String)
deriving DecidableEq, Repr

/-- The four operands of a `SparseDotOp`: `A`, `B`, accumulator `C`, and the
2:4 sparsity metadata. -/
structure SparseDotOperands where
  a : TensorType
  b : TensorType
  c : TensorType
  metadata : TensorType
deriving DecidableEq, Repr

/-- The external layout/encoding collaborator (`DialectInferLayoutInterface`),
specified only through its capability surface: whether a dialect implements
the interface, `inferDotOpEncoding` (operand encoding, operand index, result
encoding; `true` = success), and `verifyDotOpEncodingCompatibility` (the
operation plus both encodings). -/
structure LayoutOracle where
  implementsInterface : Nat → Bool
  inferDotOpEncoding : Encoding → Nat → Encoding → Bool
  verifyDotOpEncodingCompatibility : SparseDotOperands → Encoding → Encoding → VerifyResult

/-- Outcome of `SparseDotOp::inferReturnTypes`: either a crash (a failed
`assert` or a dereference of a null interface pointer), or a
`LogicalResult` (`ok`) together with the final contents of the
`inferredReturnTypes` output list. -/
inductive InferOutcome where
  | crash
  | result (ok : Bool) (inferredReturnTypes : List TensorType)
deriving DecidableEq, Repr

/-- `SparseDotOp::inferReturnTypes` (triton_xla_ops.cc:60-87). The result
type is the accumulator type, pushed onto the output list before the
encodings are checked. When `A`'s encoding is non-null, a C `assert`
requires `B`'s and the result's encodings to be non-null, and the
`dyn_cast` to the layout-inference interface is dereferenced without a null
check; both are embedded as `.crash`. -/
def SparseDotOp.inferReturnTypes (oracle : LayoutOracle) (a b c : TensorType) :
    InferOutcome :=
  -- type is the same as the accumulator
  let accTy := c
  let inferredReturnTypes := [accTy]
  -- verify encodings
  match a.encoding with
  | none => .result true inferredReturnTypes
  | some aEnc =>
    match b.encoding, c.encoding with
    | some bEnc, some retEnc =>
      if oracle.implementsInterface retEnc.dialectId then
        if oracle.inferDotOpEncoding aEnc 0 retEnc then
          if oracle.inferDotOpEncoding bEnc 1 retEnc then
            .result true inferredReturnTypes
          else .result false inferredReturnTypes
        else .result false inferredReturnTypes
      else .crash
    | _, _ => .crash

/-- `SparseDotOp::verify` (triton_xla_ops.cc:89-144). Checks run in source
order, short-circuiting at the first `emitError`. The final asserting cast
of `A`'s encoding's dialect to the layout interface is embedded by the
oracle's total `verifyDotOpEncodingCompatibility`; the shape indexing is
guarded by the preceding rank checks. -/
def SparseDotOp.verify (oracle : LayoutOracle) (op : SparseDotOperands) :
    VerifyResult :=
  -- Implied properties of 2:4 sparse dots.
  let kContractingFactor : Int := 2
  let kMetadataElementsPerPackedValue : Int := 8
  -- Verify operand A.
  let aTensorTy := op.a
  let aElemTy := aTensorTy.elemType
  if !(aElemTy.isF16 || aElemTy.isBF16) then
    .error "element type of operand A is not supported"
  else
  let aShape := aTensorTy.shape
  if aShape.length ≠ 2 then .error "shape of operand A is incorrect"
  else
  -- Verify operand B.
  let bTensorTy := op.b
  let bElemTy := bTensorTy.elemType
  if !(bElemTy.isF16 || bElemTy.isBF16) then
    .error "element type of operand B is not supported"
  else
  let bShape := bTensorTy.shape
  if bShape.length ≠ 2 then .error "shape of operand B is incorrect"
  else
  -- Verify operand C.
  let cTensorTy := op.c
  let cElemTy := cTensorTy.elemType
  if !cElemTy.isF32 then .error "element type of operand C is not supported"
  else
  let cShape := cTensorTy.shape
  if cShape.length ≠ 2 then .error "shape of operand C is incorrect"
  else
  -- Check operand dependencies.
  if aShape.getD 0 0 ≠ cShape.getD 0 0 ∨ bShape.getD 1 0 ≠ cShape.getD 1 0 ∨
      bShape.getD 0 0 ≠ aShape.getD 1 0 * kContractingFactor then
    .error "operand shape dimensions are incorrect"
  else
  if aElemTy ≠ bElemTy then .error "operand element types do not match"
  else
  -- Verify sparse metadata.
  let metaTy := op.metadata
  let metaShape := metaTy.shape
  if !(metaTy.elemType.isInteger 16) ∨ metaShape.length ≠ 2 then
    .error "sparse metadata tensor is invalid"
  else
  if metaShape.getD 0 0 ≠ aShape.getD 0 0 ∨
      metaShape.getD 1 0 * kMetadataElementsPerPackedValue ≠ aShape.getD 1 0 then
    .error "sparse metadata shape dimensions are incorrect"
  else
  -- Verify tensor encoding.
  match aTensorTy.encoding, bTensorTy.encoding with
  | none, none => .success
  | some aEncoding, some bEncoding =>
      oracle.verifyDotOpEncodingCompatibility op aEncoding bEncoding
  | _, _ => .error "mismatching encoding between A and B operands"

/-- Modelled from the spec: `TiledTensorType` (defined in the dialect's type
files, which are not under src/) — "a type with two fields: `tile_type` (the
shape+element-type of the viewed sub-region) and `original_type` (the
shape+element-type of the full tensor it was carved from)". -/
structure TiledTensorType where
  tileType : TensorType
  originalType : TensorType
deriving DecidableEq, Repr

/-- Modelled from the spec: the rank accessor of `TiledTensorType` (not under
src/). A tiled tensor describes a sub-view of the original tensor, so its
rank is the rank of the full tensor it was carved from. -/
def TiledTensorType.getRank (t : TiledTensorType) : Nat :=
  t.originalType.shape.length

/-- An SSA operand reference: a value name plus the type it resolves to
(`resolveOperand` assigns the type). -/
structure Operand where
  name : Nat
  type : TensorType
deriving DecidableEq, Repr

/-- A `TileOp`: source tensor operand, the three static integer-array
attributes, and the tiled-tensor result type. -/
structure TileOp where
  tensor : Operand
  offsets : List Int
  sizes : List Int
  strides : List Int
  resultType : TiledTensorType
deriving DecidableEq, Repr

/-- `TileOp::verify` (triton_xla_ops.cc:197-208). -/
def TileOp.verify (op : TileOp) : VerifyResult :=
  if op.tensor.type.shape.length = 0 then .error "cannot tile a 0-d tensor"
  else
  let tensor_rank := op.tensor.type.shape.length
  if tensor_rank ≠ op.offsets.length ∨ tensor_rank ≠ op.sizes.length ∨
      tensor_rank ≠ op.strides.length then
    .error "mismatch between tensor rank and one or more of offsets/sizes/strides"
  else .success

/-- Tokens of the textual form of a `TileOp`, at the granularity the
operation's parser and printer consume and produce them. -/
inductive Token where
  | operand (name : Nat)
  | lbracket
  | rbracket
  | comma
  | colon
  | intLit (v : Int)
  | attrDict
  | typeTok (t : TiledTensorType)
deriving DecidableEq, Repr

/-- Whether a value is storable in a `DenseI32ArrayAttr` element
(a signed 32-bit integer). -/
def fitsI32 (v : Int) : Bool := decide (-(2 ^ 31) ≤ v ∧ v < 2 ^ 31)

/-- Whether a value is storable in a `DenseI64ArrayAttr` element
(a signed 64-bit integer). -/
def fitsI64 (v : Int) : Bool := decide (-(2 ^ 63) ≤ v ∧ v < 2 ^ 63)

/-- `llvm::interleaveComma` over an integer sequence: the tail of the token
stream after the first element, each further element preceded by a comma. -/
def printTail : List Int → List Token
  | [] => []
  | v :: vs => Token.comma :: Token.intLit v :: printTail vs

/-- The printed form of one bracketed integer-array attribute:
`[v1, v2, ..., vn]`. -/
def printIntArray : List Int → List Token
  | [] => [Token.lbracket, Token.rbracket]
  | v :: vs => Token.lbracket :: Token.intLit v :: (printTail vs ++ [Token.rbracket])

/-- Parses the `, v` continuations of a comma-separated integer list, checking
each literal against the element width of the attribute being built. -/
def parseMoreInts (fits : Int → Bool) : List Token → Option (List Int × List Token)
  | Token.comma :: Token.intLit v :: rest =>
      if fits v then
        match parseMoreInts fits rest with
        | some (vs, r) => some (v :: vs, r)
        | none => none
      else none
  | rest => some ([], rest)

/-- Modelled from the spec: `parseDenseIntArrayAttr`
(triton_xla_ops.cc:154-161) delegates to the framework's
`DenseI32ArrayAttr::parse` / `DenseI64ArrayAttr::parse`, which is not under
src/; §4.3's grammar gives its form, a bracketed comma-separated integer
list whose elements must fit the attribute's element width. -/
def parseDenseIntArray (fits : Int → Bool) :
    List Token → Option (List Int × List Token)
  | Token.lbracket :: Token.rbracket :: rest => some ([], rest)
  | Token.lbracket :: Token.intLit v :: rest =>
      if fits v then
        match parseMoreInts fits rest with
        | some (vs, Token.rbracket :: r) => some (v :: vs, r)
        | _ => none
      else none
  | _ => none

/-- `parseOptionalAttrDict`: consumes an optional attribute dictionary. -/
def parseOptionalAttrDict : List Token → List Token
  | Token.attrDict :: rest => rest
  | rest => rest

/-- `TileOp::parse` (triton_xla_ops.cc:163-184): source operand, then the
offsets (i32), sizes (i32) and strides (i64) arrays, an optional attribute
dictionary, and `: type`; the source operand is resolved against the
original component of the parsed tiled-tensor type. -/
def TileOp.parse (toks : List Token) : Option (TileOp × List Token) :=
  match toks with
  | Token.operand src :: rest =>
    match parseDenseIntArray fitsI32 rest with
    | some (offsets, rest1) =>
      match parseDenseIntArray fitsI32 rest1 with
      | some (sizes, rest2) =>
        match parseDenseIntArray fitsI64 rest2 with
        | some (strides, rest3) =>
          match parseOptionalAttrDict rest3 with
          | Token.colon :: Token.typeTok tiled_tensor_type :: rest4 =>
              some (⟨⟨src, tiled_tensor_type.originalType⟩,
                     offsets, sizes, strides, tiled_tensor_type⟩, rest4)
          | _ => none
        | none => none
      | none => none
    | none => none
  | _ => none

/-- `TileOp::print` (triton_xla_ops.cc:186-195): the source operand, the
three integer arrays in brackets in the order offsets, sizes, strides, then
`: type`. -/
def TileOp.print (op : TileOp) : List Token :=
  Token.operand op.tensor.name ::
    (printIntArray op.offsets ++ printIntArray op.sizes ++
     printIntArray op.strides ++ [Token.colon, Token.typeTok op.resultType])

/-- An `ExtractOp`: tiled-tensor source, dynamic offset operands (their
count is what verification inspects), and the tile-shaped result type. -/
structure ExtractOp where
  src : TiledTensorType
  offsets : List Nat
  resultType : TensorType
deriving DecidableEq, Repr

/-- `ExtractOp::verify` (triton_xla_ops.cc:254-261). -/
def ExtractOp.verify (op : ExtractOp) : VerifyResult :=
  if op.resultType.shape.length = 0 then .error "cannot extract a 0-d tensor"
  else if op.src.getRank ≠ op.offsets.length then
    .error "source tensor rank does not match number of offsets"
  else .success

/-- An `InsertOp`: tile-shaped source, tiled-tensor destination, and dynamic
offset operands. -/
structure InsertOp where
  src : TensorType
  dst : TiledTensorType
  offsets : List Nat
deriving DecidableEq, Repr

/-- `InsertOp::verify` (triton_xla_ops.cc:310-318). -/
def InsertOp.verify (op : InsertOp) : VerifyResult :=
  if op.src.shape.length = 0 then .error "cannot insert a 0-d tensor"
  else if op.dst.getRank ≠ op.offsets.length then
    .error "destination tensor rank does not match number of offsets"
  else .success

/-- A collaborator instance whose capabilities always succeed. -/
def nullOracle : LayoutOracle where
  implementsInterface := fun _ => true
  inferDotOpEncoding := fun _ _ _ => true
  verifyDotOpEncodingCompatibility := fun _ _ _ => VerifyResult.success

/-- A collaborator instance whose capabilities always fail. -/
def failOracle : LayoutOracle where
  implementsInterface := fun _ => true
  inferDotOpEncoding := fun _ _ _ => false
  verifyDotOpEncodingCompatibility := fun _ _ _ =>
    VerifyResult.error "incompatible dot operand layouts"

/-- Canonical positive fixture: `A : 4x8 bf16`. -/
def fixA : TensorType := ⟨[4, 8], ElemType.bf16, none⟩

/-- Canonical positive fixture: `B : 16x4 bf16`. -/
def fixB : TensorType := ⟨[16, 4], ElemType.bf16, none⟩

/-- Canonical positive fixture: `C : 4x4 f32`. -/
def fixC : TensorType := ⟨[4, 4], ElemType.f32, none⟩

/-- Canonical positive fixture: `metadata : 4x1 i16`. -/
def fixMeta : TensorType := ⟨[4, 1], ElemType.int 16, none⟩

/-- The canonical valid sparse-dot operand tuple. -/
def fixOp : SparseDotOperands := ⟨fixA, fixB, fixC, fixMeta⟩

/-- C1: for every operand tuple satisfying all structured-sparse relations
(A, B rank-2 f16/bf16 with equal element types, C rank-2 f32, metadata
rank-2 i16, the three shape relations, the two metadata shape relations,
both encodings null), `SparseDotOp::verify` succeeds and
`SparseDotOp::inferReturnTypes` produces exactly one result type, equal to
C's type. -/
theorem sparseDot_valid_verify_and_infer (oracle : LayoutOracle)
    (op : SparseDotOperands) (m n k j : Int)
    (ha : op.a.shape = [m, k]) (hb : op.b.shape = [k * 2, n])
    (hc : op.c.shape = [m, n]) (hm : op.metadata.shape = [m, j])
    (hj : j * 8 = k)
    (haT : op.a.elemType = ElemType.f16 ∨ op.a.elemType = ElemType.bf16)
    (hab : op.b.elemType = op.a.elemType)
    (hcT : op.c.elemType = ElemType.f32)
    (hmT : op.metadata.elemType = ElemType.int 16)
    (haE : op.a.encoding = none) (hbE : op.b.encoding = none) :
    SparseDotOp.verify oracle op = VerifyResult.success ∧
    SparseDotOp.inferReturnTypes oracle op.a op.b op.c =
      InferOutcome.result true [op.c] := by
  constructor
  · rcases haT with h | h <;>
      simp [SparseDotOp.verify, ha, hb, hc, hm, hj, h, hab, hcT, hmT, haE, hbE,
            ElemType.isF16, ElemType.isBF16, ElemType.isF32, ElemType.isInteger]
  · simp [SparseDotOp.inferReturnTypes, haE]

/-- Witness for C1 at the canonical fixture. -/
theorem sparseDot_valid_verify_and_infer_witness :
    SparseDotOp.verify nullOracle fixOp = VerifyResult.success ∧
    SparseDotOp.inferReturnTypes nullOracle fixOp.a fixOp.b fixOp.c =
      InferOutcome.result true [fixOp.c] :=
  sparseDot_valid_verify_and_infer nullOracle fixOp 4 4 8 1
    rfl (by decide) rfl rfl (by decide) (Or.inr rfl) rfl rfl rfl rfl rfl

/-- C2: any operand tuple violating one of the cross relations (row match,
column match, doubling relation, metadata row relation, metadata column
relation, A/B element-type equality, metadata element type / rank) fails
`SparseDotOp::verify`; in particular this covers every tuple that satisfies
all the remaining relations. -/
theorem sparseDot_verify_fails_on_single_violation (oracle : LayoutOracle)
    (op : SparseDotOperands)
    (viol :
      op.a.shape.getD 0 0 ≠ op.c.shape.getD 0 0 ∨
      op.b.shape.getD 1 0 ≠ op.c.shape.getD 1 0 ∨
      op.b.shape.getD 0 0 ≠ op.a.shape.getD 1 0 * 2 ∨
      op.metadata.shape.getD 0 0 ≠ op.a.shape.getD 0 0 ∨
      op.metadata.shape.getD 1 0 * 8 ≠ op.a.shape.getD 1 0 ∨
      op.a.elemType ≠ op.b.elemType ∨
      ¬(op.metadata.elemType.isInteger 16 = true ∧
        op.metadata.shape.length = 2)) :
    SparseDotOp.verify oracle op ≠ VerifyResult.success := by
  intro h
  simp only [SparseDotOp.verify] at h
  repeat' split at h
  all_goals simp_all

/-- Witness for C2: the canonical negative fixture, `B : 15x4` instead of
`16x4`, violating the doubling relation. -/
theorem sparseDot_verify_fails_on_single_violation_witness :
    SparseDotOp.verify nullOracle
      ⟨fixA, ⟨[15, 4], ElemType.bf16, none⟩, fixC, fixMeta⟩ ≠
      VerifyResult.success :=
  sparseDot_verify_fails_on_single_violation nullOracle
    ⟨fixA, ⟨[15, 4], ElemType.bf16, none⟩, fixC, fixMeta⟩
    (Or.inr (Or.inr (Or.inl (by decide))))

/-- The C3 scenario: A has a valid element type (f16) but rank 3, and B has
an invalid element type (f32). -/
def orderOp : SparseDotOperands :=
  ⟨⟨[1, 2, 3], ElemType.f16, none⟩, ⟨[2, 2], ElemType.f32, none⟩, fixC, fixMeta⟩

/-- C3 counterexample: with A's element type valid, A not rank 2, and B's
element type invalid, `SparseDotOp::verify` reports A's rank error, not B's
element-type error — the rank check of A runs before any check of B. -/
theorem sparseDot_check_order_counterexample :
    SparseDotOp.verify nullOracle orderOp =
      VerifyResult.error "shape of operand A is incorrect" ∧
    SparseDotOp.verify nullOracle orderOp ≠
      VerifyResult.error "element type of operand B is not supported" := by
  constructor
  · rfl
  · decide

/-- C3 amended: `SparseDotOp::verify` checks each operand's element type and
rank together before moving to the next operand (element type of A, rank of
A, element type of B, rank of B, element type of C, rank of C), still
short-circuiting on the first failure; so whenever A's element type is
valid but A is not rank 2, verification fails with A's rank error
regardless of B and C. -/
theorem sparseDot_rankA_before_elemB (oracle : LayoutOracle)
    (op : SparseDotOperands)
    (haT : (op.a.elemType.isF16 || op.a.elemType.isBF16) = true)
    (haR : op.a.shape.length ≠ 2) :
    SparseDotOp.verify oracle op =
      VerifyResult.error "shape of operand A is incorrect" := by
  simp [SparseDotOp.verify, haT, haR]

/-- Witness for the amended C3 at the concrete scenario operation. -/
theorem sparseDot_rankA_before_elemB_witness :
    SparseDotOp.verify nullOracle orderOp =
      VerifyResult.error "shape of operand A is incorrect" :=
  sparseDot_rankA_before_elemB nullOracle orderOp (by decide) (by decide)

/-- Encoded variant of the canonical fixture: `A : 4x8 bf16` with a layout
encoding owned by dialect 0. -/
def encA : TensorType := ⟨[4, 8], ElemType.bf16, some ⟨0, 1⟩⟩

/-- Encoded variant of the canonical fixture: `B : 16x4 bf16`. -/
def encB : TensorType := ⟨[16, 4], ElemType.bf16, some ⟨0, 2⟩⟩

/-- Encoded variant of the canonical fixture: `C : 4x4 f32`. -/
def encC : TensorType := ⟨[4, 4], ElemType.f32, some ⟨0, 3⟩⟩

/-- C4 counterexample: with A's encoding non-null and a collaborator whose
layout-inference capability fails, `SparseDotOp::inferReturnTypes` returns
failure, but the output list is not left empty — the accumulator type was
already appended before the encoding checks ran. -/
theorem infer_partial_result_counterexample :
    SparseDotOp.inferReturnTypes failOracle encA encB encC =
      InferOutcome.result false [encC] ∧
    [encC] ≠ ([] : List TensorType) := by
  constructor
  · rfl
  · decide

/-- C4 amended: when A's encoding is non-null and either of the two
layout-inference invocations (operand index 0 with A's encoding, operand
index 1 with B's encoding, each against the result's encoding) fails,
`SparseDotOp::inferReturnTypes` returns failure, with the accumulator type
(C's type) already appended as the single element of the output list. -/
theorem infer_failure_keeps_acc_type (oracle : LayoutOracle)
    (a b c : TensorType) (aEnc bEnc rEnc : Encoding)
    (haE : a.encoding = some aEnc) (hbE : b.encoding = some bEnc)
    (hrE : c.encoding = some rEnc)
    (himpl : oracle.implementsInterface rEnc.dialectId = true)
    (hfail : oracle.inferDotOpEncoding aEnc 0 rEnc = false ∨
             oracle.inferDotOpEncoding bEnc 1 rEnc = false) :
    SparseDotOp.inferReturnTypes oracle a b c =
      InferOutcome.result false [c] := by
  simp only [SparseDotOp.inferReturnTypes, haE, hbE, hrE, himpl, if_true]
  rcases hfail with h | h
  · simp [h]
  · cases h1 : oracle.inferDotOpEncoding aEnc 0 rEnc <;> simp [h1, h]

/-- Witness for the amended C4 at the encoded fixture with the failing
collaborator. -/
theorem infer_failure_keeps_acc_type_witness :
    SparseDotOp.inferReturnTypes failOracle encA encB encC =
      InferOutcome.result false [encC] :=
  infer_failure_keeps_acc_type failOracle encA encB encC ⟨0, 1⟩ ⟨0, 2⟩ ⟨0, 3⟩
    rfl rfl rfl rfl (Or.inl rfl)

/-- C5: for every operand tuple passing all element-type, rank, shape and
metadata checks, `SparseDotOp::verify` on the encodings of A and B:
both null succeeds; exactly one null fails with the mismatching-encoding
error; both non-null returns verbatim the collaborator's
compatibility-verification result for the operation and both encodings. -/
theorem sparseDot_encoding_cases (oracle : LayoutOracle)
    (op : SparseDotOperands) (m n k j : Int)
    (ha : op.a.shape = [m, k]) (hb : op.b.shape = [k * 2, n])
    (hc : op.c.shape = [m, n]) (hm : op.metadata.shape = [m, j])
    (hj : j * 8 = k)
    (haT : op.a.elemType = ElemType.f16 ∨ op.a.elemType = ElemType.bf16)
    (hab : op.b.elemType = op.a.elemType)
    (hcT : op.c.elemType = ElemType.f32)
    (hmT : op.metadata.elemType = ElemType.int 16) :
    (op.a.encoding = none → op.b.encoding = none →
      SparseDotOp.verify oracle op = VerifyResult.success) ∧
    ((op.a.encoding.isSome ∧ op.b.encoding = none) ∨
        (op.a.encoding = none ∧ op.b.encoding.isSome) →
      SparseDotOp.verify oracle op =
        VerifyResult.error "mismatching encoding between A and B operands") ∧
    (∀ aEnc bEnc, op.a.encoding = some aEnc → op.b.encoding = some bEnc →
      SparseDotOp.verify oracle op =
        oracle.verifyDotOpEncodingCompatibility op aEnc bEnc) := by
  have hver : SparseDotOp.verify oracle op =
      match op.a.encoding, op.b.encoding with
      | none, none => VerifyResult.success
      | some aEncoding, some bEncoding =>
          oracle.verifyDotOpEncodingCompatibility op aEncoding bEncoding
      | _, _ =>
          VerifyResult.error "mismatching encoding between A and B operands" := by
    rcases haT with h | h <;>
      simp [SparseDotOp.verify, ha, hb, hc, hm, hj, h, hab, hcT, hmT,
            ElemType.isF16, ElemType.isBF16, ElemType.isF32, ElemType.isInteger]
  refine ⟨?_, ?_, ?_⟩
  · intro h1 h2
    rw [hver, h1, h2]
  · rintro (⟨h1, h2⟩ | ⟨h1, h2⟩)
    · rcases Option.isSome_iff_exists.mp h1 with ⟨x, hx⟩
      rw [hver, hx, h2]
    · rcases Option.isSome_iff_exists.mp h2 with ⟨x, hx⟩
      rw [hver, h1, hx]
  · intro aEnc bEnc h1 h2
    rw [hver, h1, h2]

/-- Witness for C5: all three branches at concrete tuples — both-null
succeeds, one-null fails, both-non-null returns the failing collaborator's
verdict verbatim. -/
theorem sparseDot_encoding_cases_witness :
    SparseDotOp.verify nullOracle fixOp = VerifyResult.success ∧
    SparseDotOp.verify nullOracle ⟨encA, fixB, fixC, fixMeta⟩ =
      VerifyResult.error "mismatching encoding between A and B operands" ∧
    SparseDotOp.verify failOracle ⟨encA, encB, fixC, fixMeta⟩ =
      VerifyResult.error "incompatible dot operand layouts" :=
  ⟨(sparseDot_encoding_cases nullOracle fixOp 4 4 8 1 rfl (by decide) rfl rfl
      (by decide) (Or.inr rfl) rfl rfl rfl).1 rfl rfl,
   (sparseDot_encoding_cases nullOracle ⟨encA, fixB, fixC, fixMeta⟩ 4 4 8 1
      rfl (by decide) rfl rfl (by decide) (Or.inr rfl) rfl rfl rfl).2.1
      (Or.inl ⟨rfl, rfl⟩),
   (sparseDot_encoding_cases failOracle ⟨encA, encB, fixC, fixMeta⟩ 4 4 8 1
      rfl (by decide) rfl rfl (by decide) (Or.inr rfl) rfl rfl rfl).2.2
      ⟨0, 1⟩ ⟨0, 2⟩ rfl rfl⟩

/-- Parsing the comma-separated continuation of a printed integer sequence
recovers the sequence, leaving the closing bracket and what follows. -/
theorem parseMoreInts_printTail (fits : Int → Bool) (vs : List Int)
    (rest : List Token) (hfit : ∀ v ∈ vs, fits v = true) :
    parseMoreInts fits (printTail vs ++ Token.rbracket :: rest) =
      some (vs, Token.rbracket :: rest) := by
  induction vs with
  | nil => rfl
  | cons v vs ih =>
      have h1 : fits v = true := hfit v (by simp)
      have h2 : ∀ x ∈ vs, fits x = true := fun x hx => hfit x (by simp [hx])
      simp [printTail, parseMoreInts, h1, ih h2]

/-- Parsing a printed bracketed integer array recovers the array. -/
theorem parseDenseIntArray_printIntArray (fits : Int → Bool) (xs : List Int)
    (rest : List Token) (hfit : ∀ v ∈ xs, fits v = true) :
    parseDenseIntArray fits (printIntArray xs ++ rest) = some (xs, rest) := by
  cases xs with
  | nil => rfl
  | cons v vs =>
      have h1 : fits v = true := hfit v (by simp)
      have h2 : ∀ x ∈ vs, fits x = true := fun x hx => hfit x (by simp [hx])
      simp [printIntArray, parseDenseIntArray, h1,
            parseMoreInts_printTail fits vs rest h2]

/-- C6: printing a valid `TileOp` (attribute values within their element
widths, source operand typed at the tiled-tensor type's original component)
and re-parsing the text yields the identical operation — same source
operand, offsets, sizes, strides and tiled-tensor result type — with no
tokens left over. -/
theorem tileOp_print_parse_roundtrip (op : TileOp)
    (hoff : ∀ v ∈ op.offsets, fitsI32 v = true)
    (hsz : ∀ v ∈ op.sizes, fitsI32 v = true)
    (hst : ∀ v ∈ op.strides, fitsI64 v = true)
    (hty : op.tensor.type = op.resultType.originalType) :
    TileOp.parse (TileOp.print op) = some (op, []) := by
  rcases op with ⟨⟨name, ty⟩, offs, szs, sts, rty⟩
  simp only at hoff hsz hst hty
  subst hty
  simp [TileOp.print, TileOp.parse,
        parseDenseIntArray_printIntArray fitsI32 offs _ hoff,
        parseDenseIntArray_printIntArray fitsI32 szs _ hsz,
        parseDenseIntArray_printIntArray fitsI64 sts _ hst,
        parseOptionalAttrDict]

/-- The concrete TileOp fixture: a 16x64 tile of a 120x320 f32 tensor, with
a stride value that needs more than 32 bits. -/
def tileFix : TileOp :=
  ⟨⟨7, ⟨[120, 320], ElemType.f32, none⟩⟩, [0, 0], [16, 64], [2 ^ 31, 1],
   ⟨⟨[16, 64], ElemType.f32, none⟩, ⟨[120, 320], ElemType.f32, none⟩⟩⟩

/-- Witness for C6 at the concrete TileOp fixture. -/
theorem tileOp_print_parse_roundtrip_witness :
    TileOp.parse (TileOp.print tileFix) = some (tileFix, []) :=
  tileOp_print_parse_roundtrip tileFix (by decide) (by decide) (by decide) rfl

/-- C7: `TileOp::verify` fails for a rank-0 source tensor; it fails with the
single combined error naming all three attributes whenever any of offsets,
sizes or strides has length different from the source rank; and it succeeds
whenever the source rank is at least 1 and all three lengths equal it. -/
theorem tileOp_verify_spec (op : TileOp) :
    (op.tensor.type.shape.length = 0 →
      TileOp.verify op = VerifyResult.error "cannot tile a 0-d tensor") ∧
    (1 ≤ op.tensor.type.shape.length →
      (op.offsets.length ≠ op.tensor.type.shape.length ∨
       op.sizes.length ≠ op.tensor.type.shape.length ∨
       op.strides.length ≠ op.tensor.type.shape.length) →
      TileOp.verify op = VerifyResult.error
        "mismatch between tensor rank and one or more of offsets/sizes/strides") ∧
    (1 ≤ op.tensor.type.shape.length →
      op.offsets.length = op.tensor.type.shape.length →
      op.sizes.length = op.tensor.type.shape.length →
      op.strides.length = op.tensor.type.shape.length →
      TileOp.verify op = VerifyResult.success) := by
  refine ⟨?_, ?_, ?_⟩
  · intro h0
    simp [TileOp.verify, h0]
  · intro h1 hmis
    have h0 : ¬ op.tensor.type.shape.length = 0 := by omega
    have hc : op.tensor.type.shape.length ≠ op.offsets.length ∨
        op.tensor.type.shape.length ≠ op.sizes.length ∨
        op.tensor.type.shape.length ≠ op.strides.length := by
      rcases hmis with h | h | h
      · exact Or.inl (Ne.symm h)
      · exact Or.inr (Or.inl (Ne.symm h))
      · exact Or.inr (Or.inr (Ne.symm h))
    simp [TileOp.verify, h0, hc]
  · intro h1 e1 e2 e3
    have h0 : ¬ op.tensor.type.shape.length = 0 := by omega
    simp [TileOp.verify, h0, e1, e2, e3]

/-- Witness for C7: a rank-0 source, a rank-2 source with rank-1 offsets,
and the valid fixture. -/
theorem tileOp_verify_spec_witness :
    TileOp.verify ⟨⟨0, ⟨[], ElemType.f32, none⟩⟩, [], [], [],
        ⟨⟨[], ElemType.f32, none⟩, ⟨[], ElemType.f32, none⟩⟩⟩ =
      VerifyResult.error "cannot tile a 0-d tensor" ∧
    TileOp.verify ⟨⟨1, ⟨[120, 320], ElemType.f32, none⟩⟩, [0], [16, 64], [1, 1],
        ⟨⟨[16, 64], ElemType.f32, none⟩, ⟨[120, 320], ElemType.f32, none⟩⟩⟩ =
      VerifyResult.error
        "mismatch between tensor rank and one or more of offsets/sizes/strides" ∧
    TileOp.verify tileFix = VerifyResult.success :=
  ⟨(tileOp_verify_spec _).1 rfl,
   (tileOp_verify_spec _).2.1 (by decide) (Or.inl (by decide)),
   (tileOp_verify_spec tileFix).2.2 (by decide) rfl rfl rfl⟩

/-- C8: `ExtractOp::verify` succeeds exactly when the result tensor has rank
at least 1 and the number of dynamic offset operands equals the rank of the
source tiled tensor; `InsertOp::verify` succeeds exactly when the source
tile has rank at least 1 and the number of dynamic offset operands equals
the rank of the destination tiled tensor; rank-0 results (extract) and
rank-0 sources (insert) are rejected. -/
theorem extract_insert_verify_spec (e : ExtractOp) (i : InsertOp) :
    (ExtractOp.verify e = VerifyResult.success ↔
      1 ≤ e.resultType.shape.length ∧ e.offsets.length = e.src.getRank) ∧
    (InsertOp.verify i = VerifyResult.success ↔
      1 ≤ i.src.shape.length ∧ i.offsets.length = i.dst.getRank) := by
  constructor
  · constructor
    · intro h
      unfold ExtractOp.verify at h
      split at h
      · exact absurd h (by simp)
      · split at h
        · exact absurd h (by simp)
        · rename_i h0 h1
          have h1e : e.src.getRank = e.offsets.length := not_not.mp h1
          exact ⟨by omega, h1e.symm⟩
    · rintro ⟨h1, h2⟩
      have h0 : ¬ e.resultType.shape.length = 0 := by omega
      have hr : ¬ e.src.getRank ≠ e.offsets.length := by
        rw [not_ne_iff]
        exact h2.symm
      simp [ExtractOp.verify, h0, hr]
  · constructor
    · intro h
      unfold InsertOp.verify at h
      split at h
      · exact absurd h (by simp)
      · split at h
        · exact absurd h (by simp)
        · rename_i h0 h1
          have h1e : i.dst.getRank = i.offsets.length := not_not.mp h1
          exact ⟨by omega, h1e.symm⟩
    · rintro ⟨h1, h2⟩
      have h0 : ¬ i.src.shape.length = 0 := by omega
      have hr : ¬ i.dst.getRank ≠ i.offsets.length := by
        rw [not_ne_iff]
        exact h2.symm
      simp [InsertOp.verify, h0, hr]

/-- Witness for C8: a valid extract and a valid insert on the 16x64 tile of
a 120x320 tensor succeed. -/
theorem extract_insert_verify_spec_witness :
    ExtractOp.verify ⟨⟨⟨[16, 64], ElemType.f32, none⟩,
        ⟨[120, 320], ElemType.f32, none⟩⟩, [3, 4], ⟨[16, 64], ElemType.f32, none⟩⟩ =
      VerifyResult.success ∧
    InsertOp.verify ⟨⟨[16, 64], ElemType.f32, none⟩,
        ⟨⟨[16, 64], ElemType.f32, none⟩, ⟨[120, 320], ElemType.f32, none⟩⟩, [3, 4]⟩ =
      VerifyResult.success :=
  ⟨(extract_insert_verify_spec _ ⟨⟨[1], ElemType.f32, none⟩,
      ⟨⟨[1], ElemType.f32, none⟩, ⟨[1], ElemType.f32, none⟩⟩, [0]⟩).1.mpr
      ⟨by decide, by decide⟩,
   (extract_insert_verify_spec ⟨⟨⟨[1], ElemType.f32, none⟩,
      ⟨[1], ElemType.f32, none⟩⟩, [0],
      ⟨[1], ElemType.f32, none⟩⟩ _).2.mpr ⟨by decide, by decide⟩⟩

/-- C9: on the encoded path of `SparseDotOp::inferReturnTypes` (A's
encoding non-null), the non-nullness of B's and the result's encodings and
the result dialect's implementation of the layout-inference interface are
unchecked preconditions: violating them crashes (failed assert or null
dereference) rather than returning a diagnosed inference failure, and under
the preconditions the assert holds and the dereference is safe. -/
theorem infer_encoded_preconditions (oracle : LayoutOracle)
    (a b c : TensorType) (aEnc : Encoding) (haE : a.encoding = some aEnc) :
    ((b.encoding = none ∨ c.encoding = none ∨
        ∀ rEnc, c.encoding = some rEnc →
          oracle.implementsInterface rEnc.dialectId = false) →
      SparseDotOp.inferReturnTypes oracle a b c = InferOutcome.crash) ∧
    (∀ rEnc, b.encoding.isSome → c.encoding = some rEnc →
      oracle.implementsInterface rEnc.dialectId = true →
      SparseDotOp.inferReturnTypes oracle a b c ≠ InferOutcome.crash) := by
  constructor
  · intro hviol
    simp only [SparseDotOp.inferReturnTypes, haE]
    rcases hbc : b.encoding with _ | bEnc
    · rfl
    · rcases hcc : c.encoding with _ | rEnc
      · rfl
      · rcases hviol with h | h | h
        · rw [hbc] at h
          exact absurd h (by simp)
        · rw [hcc] at h
          exact absurd h (by simp)
        · simp [h rEnc hcc]
  · intro rEnc hbS hcE himpl
    rcases Option.isSome_iff_exists.mp hbS with ⟨bEnc, hbE⟩
    simp only [SparseDotOp.inferReturnTypes, haE, hbE, hcE, himpl, if_true]
    cases h1 : oracle.inferDotOpEncoding aEnc 0 rEnc <;>
      cases h2 : oracle.inferDotOpEncoding bEnc 1 rEnc <;>
      simp [h1, h2]

/-- Witness for C9: with A encoded and B unencoded inference crashes on the
assert; with all three encoded and the interface implemented it does not
crash. -/
theorem infer_encoded_preconditions_witness :
    SparseDotOp.inferReturnTypes nullOracle encA fixB encC =
      InferOutcome.crash ∧
    SparseDotOp.inferReturnTypes nullOracle encA encB encC ≠
      InferOutcome.crash :=
  ⟨(infer_encoded_preconditions nullOracle encA fixB encC ⟨0, 1⟩ rfl).1
      (Or.inl rfl),
   (infer_encoded_preconditions nullOracle encA encB encC ⟨0, 1⟩ rfl).2
      ⟨0, 3⟩ rfl rfl rfl⟩

/-- Every integer accepted by the comma-continuation parser passed its
width check. -/
theorem parseMoreInts_sound (fits : Int → Bool) (ts : List Token)
    (vs : List Int) (rest : List Token)
    (h : parseMoreInts fits ts = some (vs, rest)) : ∀ v ∈ vs, fits v = true := by
  induction ts using parseMoreInts.induct fits generalizing vs rest with
  | case1 v rest2 hfit vs2 r2 heq ih =>
      simp only [parseMoreInts, hfit, if_true, heq] at h
      injection h with h
      injection h with h1 h2
      intro x hx
      rw [← h1] at hx
      rcases List.mem_cons.mp hx with rfl | hx2
      · exact hfit
      · exact ih vs2 r2 heq x hx2
  | case2 v rest2 hfit heq =>
      simp only [parseMoreInts, hfit, if_true, heq] at h
      exact absurd h (by simp)
  | case3 v rest2 hfit =>
      simp only [parseMoreInts, hfit] at h
      simp at h
  | case4 ts2 hne =>
      rw [parseMoreInts.eq_def] at h
      split at h
      · exact absurd rfl (hne _ _)
      · injection h with h
        injection h with h1 h2
        intro x hx
        rw [← h1] at hx
        simp at hx

/-- Every integer accepted by the bracketed-array parser passed its width
check. -/
theorem parseDenseIntArray_sound (fits : Int → Bool) (ts : List Token)
    (vs : List Int) (rest : List Token)
    (h : parseDenseIntArray fits ts = some (vs, rest)) :
    ∀ v ∈ vs, fits v = true := by
  rw [parseDenseIntArray.eq_def] at h
  split at h
  · injection h with h
    injection h with h1 h2
    intro x hx
    rw [← h1] at hx
    simp at hx
  · rename_i v rest2
    split at h
    · rename_i hfit
      split at h
      · rename_i vs2 r2 heq
        injection h with h
        injection h with h1 h2
        intro x hx
        rw [← h1] at hx
        rcases List.mem_cons.mp hx with rfl | hx2
        · exact hfit
        · exact parseMoreInts_sound fits rest2 vs2 _ heq x hx2
      · exact absurd h (by simp)
    · exact absurd h (by simp)
  · exact absurd h (by simp)

/-- C10: in `TileOp`'s grammar the offsets and sizes attributes hold 32-bit
integers while the strides attribute holds 64-bit integers: every parsed
`TileOp` has all offset and size values representable in 32 bits and all
stride values representable in 64 bits, and some parseable `TileOp` carries
a stride value that is not representable in 32 bits. -/
theorem tileOp_attr_width_asymmetry :
    (∀ ts op rest, TileOp.parse ts = some (op, rest) →
      (∀ v ∈ op.offsets, fitsI32 v = true) ∧
      (∀ v ∈ op.sizes, fitsI32 v = true) ∧
      (∀ v ∈ op.strides, fitsI64 v = true)) ∧
    (∃ ts op, TileOp.parse ts = some (op, []) ∧
      ∃ v ∈ op.strides, fitsI32 v = false) := by
  constructor
  · intro ts op rest h
    rw [TileOp.parse.eq_def] at h
    split at h
    · rename_i src rest0
      split at h
      · rename_i offs rest1 hoffs
        split at h
        · rename_i szs rest2 hszs
          split at h
          · rename_i sts rest3 hsts
            split at h
            · rename_i ty rest4
              injection h with h
              injection h with h1 h2
              rw [← h1]
              exact ⟨parseDenseIntArray_sound fitsI32 rest0 offs rest1 hoffs,
                     parseDenseIntArray_sound fitsI32 rest1 szs rest2 hszs,
                     parseDenseIntArray_sound fitsI64 rest2 sts rest3 hsts⟩
            · exact absurd h (by simp)
          · exact absurd h (by simp)
        · exact absurd h (by simp)
      · exact absurd h (by simp)
    · exact absurd h (by simp)
  · exact ⟨TileOp.print tileFix, tileFix, by decide, 2 ^ 31, by decide, by decide⟩

/-- Witness for C10 at the concrete fixture, whose stride list holds
`2 ^ 31`. -/
theorem tileOp_attr_width_asymmetry_witness :
    (∀ v ∈ tileFix.offsets, fitsI32 v = true) ∧
    (∀ v ∈ tileFix.sizes, fitsI32 v = true) ∧
    (∀ v ∈ tileFix.strides, fitsI64 v = true) :=
  tileOp_attr_width_asymmetry.1 (TileOp.print tileFix) tileFix [] (by decide)
